import Mathlib

/-!
Verification of the persistent live-update WebSocket client of the
Ashbaby-full dashboard (class WebSocketService in the frontend sources).

The class is embedded shallowly: each method becomes a pure function from
the private field state (WS) to a pair of the updated state and the list
of externally visible effects it performs (transport writes, console
logging, Redux store dispatches, timer starts/stops/schedules).  Timer
callbacks (the setInterval ping tick and the setTimeout reconnect body)
and transport event deliveries (onopen, onmessage, onclose, onerror) are
separate step functions.  A second layer (Sys) adds the count of pending
reconnect setTimeout callbacks, which the class schedules but whose
handle it never stores.
-/

namespace WSClient

/-- WebSocket readyState values (CONNECTING/OPEN/CLOSING/CLOSED);
the constructor named opened stands for WebSocket.OPEN. -/
inductive ReadyState
  | connecting
  | opened
  | closing
  | closed
deriving DecidableEq, Repr

/-- The function stored in the onopen field of the socket.  The connect
method first assigns the bound handleOpen, then, when a token is
present, overwrites the field with a closure that sends the bearer
handshake. -/
inductive OnOpenHandler
  | handleOpenCb
  | sendAuthCb (token : String)
deriving DecidableEq, Repr

/-- The transport object created by new WebSocket(wsUrl), keeping the
fields the client reads or writes: the url, the ready state, and which
onopen callback is installed (onmessage/onclose/onerror are always the
bound handlers and carry no data). -/
structure Socket where
  url : String
  readyState : ReadyState
  onopen : OnOpenHandler
deriving DecidableEq, Repr

/-- Outbound application messages written to the transport: the bearer
handshake object, the keepalive probe object with type "ping", or any
other payload handed to the send method. -/
inductive OutMsg
  | auth (token : String)
  | ping
  | other (data : String)
deriving DecidableEq, Repr

/-- Externally visible effects of one method or handler invocation, in
program order: a transport write, a close frame, starting the ping
interval, clearing the ping interval, scheduling the reconnect body via
setTimeout (whose handle is not stored), a Redux store dispatch, and
console output. -/
inductive Effect
  | wsSend (payload : OutMsg)
  | closeFrame (code : Nat) (reason : String)
  | startPing (periodMs : Nat)
  | stopPing
  | scheduleReconnect (delayMs : Nat)
  | storeDispatch (action : String) (payload : String)
  | consoleLog (msg : String)
  | consoleError (msg : String)
deriving DecidableEq, Repr

/-- The private fields of WebSocketService.  The pingInterval field is
true exactly when the interval handle is non-null. -/
structure WS where
  socket : Option Socket
  reconnectAttempts : Nat
  reconnectTimeout : Nat
  pingInterval : Bool
  userId : Option String
deriving DecidableEq, Repr

/-- The constant field maxReconnectAttempts = 5. -/
def maxReconnectAttempts : Nat := 5

/-- Field initializers of the class: no socket, 0 attempts, 1000 ms
starting timeout, no ping interval, no user id. -/
def initWS : WS :=
  { socket := none
    reconnectAttempts := 0
    reconnectTimeout := 1000
    pingInterval := false
    userId := none }

/-- The connection url, REACT_APP_WS_URL/ws/userId, with the environment
prefix left abstract as the empty string. -/
def wsUrl (userId : String) : String := "/ws/" ++ userId

/-- The guard used by connect and send: the optional-chained comparison
of the readyState of the socket with WebSocket.OPEN. -/
def socketIsOpen (s : WS) : Bool :=
  match s.socket with
  | some sock => sock.readyState = ReadyState.opened
  | none => false

/-- The connect(userId) method.  The bearer token read from the auth
slice of the Redux store is passed explicitly.  If a token is present
the onopen field is overwritten with the handshake closure, replacing
the previously assigned bound handleOpen. -/
def connect (userId : String) (token : Option String) (s : WS) :
    WS × List Effect :=
  if socketIsOpen s then (s, [])
  else
    let onopen :=
      match token with
      | some t => OnOpenHandler.sendAuthCb t
      | none => OnOpenHandler.handleOpenCb
    ({ s with
        userId := some userId
        socket := some
          { url := wsUrl userId
            readyState := ReadyState.connecting
            onopen := onopen } }, [])

/-- The private handleOpen method: logs, resets the attempt counter and
the backoff timeout, and starts the 30000 ms ping interval. -/
def handleOpen (s : WS) : WS × List Effect :=
  ({ s with
      reconnectAttempts := 0
      reconnectTimeout := 1000
      pingInterval := true },
   [Effect.consoleLog "WebSocket connected", Effect.startPing 30000])

/-- Delivery of the transport open event to the current socket: the
ready state becomes OPEN and whichever callback is stored in the onopen
field runs.  The handshake closure re-checks that the socket field is
non-null before sending. -/
def fireOpen (s : WS) : WS × List Effect :=
  match s.socket with
  | none => (s, [])
  | some sock =>
    let s1 : WS :=
      { s with socket := some { sock with readyState := ReadyState.opened } }
    match sock.onopen with
    | OnOpenHandler.handleOpenCb => handleOpen s1
    | OnOpenHandler.sendAuthCb t =>
      if s1.socket.isSome then (s1, [Effect.wsSend (OutMsg.auth t)])
      else (s1, [])

/-- Result of JSON.parse on an inbound frame: either the parse throws,
or it yields an object whose type field may be absent. -/
inductive Inbound
  | undecodable (raw : String)
  | envelope (type : Option String) (data : String)
deriving DecidableEq, Repr

/-- The private handleMessage method: parse inside try/catch, then
switch on the type field; the four data-bearing cases dispatch to the
Redux store, the pong case is a no-op, and everything else logs and is
dropped.  The handler touches no field of the service. -/
def handleMessage (m : Inbound) (s : WS) : WS × List Effect :=
  match m with
  | Inbound.undecodable _ =>
    (s, [Effect.consoleError "Error parsing WebSocket message:"])
  | Inbound.envelope t d =>
    if t = some "pong" then (s, [])
    else if t = some "chat_message" then
      (s, [Effect.storeDispatch "chat/messageReceived" d])
    else if t = some "goal_update" then
      (s, [Effect.storeDispatch "goals/goalUpdated" d])
    else if t = some "transaction_update" then
      (s, [Effect.storeDispatch "finance/transactionUpdated" d])
    else if t = some "post_update" then
      (s, [Effect.storeDispatch "community/postUpdated" d])
    else (s, [Effect.consoleLog "Unhandled message type:"])

/-- The private attemptReconnect method: when the attempt counter is
below the maximum and a user id is retained, schedule the reconnect body
after the current backoff timeout (the setTimeout handle is not
stored); otherwise log and dispatch the terminal connectivity error. -/
def attemptReconnect (s : WS) : WS × List Effect :=
  if s.reconnectAttempts < maxReconnectAttempts ∧ s.userId.isSome = true then
    (s, [Effect.scheduleReconnect s.reconnectTimeout])
  else
    (s, [Effect.consoleError "Max reconnection attempts reached",
         Effect.storeDispatch "app/websocketError"
           "Unable to establish WebSocket connection"])

/-- The private handleClose method: log, clear the ping interval if
running, and call attemptReconnect unless the close code is 1000. -/
def handleClose (code : Nat) (s : WS) : WS × List Effect :=
  let logs := [Effect.consoleLog "WebSocket disconnected:"]
  let p :=
    if s.pingInterval then
      ({ s with pingInterval := false }, [Effect.stopPing])
    else (s, ([] : List Effect))
  if code = 1000 then (p.1, logs ++ p.2)
  else
    let q := attemptReconnect p.1
    (q.1, logs ++ p.2 ++ q.2)

/-- Delivery of the transport close event: the readyState of the socket
becomes CLOSED (the handler does not null the field) and handleClose
runs with the close code of the event. -/
def fireClose (code : Nat) (s : WS) : WS × List Effect :=
  match s.socket with
  | none => (s, [])
  | some sock =>
    handleClose code
      { s with socket := some { sock with readyState := ReadyState.closed } }

/-- The private handleError method: logs the error and nothing else. -/
def handleError (s : WS) : WS × List Effect :=
  (s, [Effect.consoleError "WebSocket error:"])

/-- The send(data) method: write to the transport when OPEN, otherwise
log an error; nothing is stored. -/
def send (data : OutMsg) (s : WS) : WS × List Effect :=
  if socketIsOpen s then (s, [Effect.wsSend data])
  else (s, [Effect.consoleError "WebSocket is not connected"])

/-- One tick of the ping interval: the interval body calls send with the
keepalive probe object. -/
def pingFire (s : WS) : WS × List Effect := send OutMsg.ping s

/-- Body of the setTimeout scheduled by attemptReconnect: log, call
connect with the retained user id and the token read at fire time, then
increment the attempt counter and double the backoff timeout. -/
def reconnectFire (token : Option String) (s : WS) : WS × List Effect :=
  let p :=
    match s.userId with
    | some uid => connect uid token s
    | none => (s, ([] : List Effect))
  ({ p.1 with
      reconnectAttempts := p.1.reconnectAttempts + 1
      reconnectTimeout := p.1.reconnectTimeout * 2 },
   Effect.consoleLog "Attempting to reconnect..." :: p.2)

/-- The disconnect() method: close the socket with code 1000 and null
the field, then clear the ping interval if running.  No reconnect timer
handle exists to be cleared. -/
def disconnect (s : WS) : WS × List Effect :=
  let p :=
    match s.socket with
    | some _ =>
      (({ s with socket := none } : WS),
       [Effect.closeFrame 1000 "User disconnected"])
    | none => (s, ([] : List Effect))
  if p.1.pingInterval then
    ({ p.1 with pingInterval := false }, p.2 ++ [Effect.stopPing])
  else (p.1, p.2)

/-- Number of reconnect setTimeout calls in an effect list. -/
def countSched (es : List Effect) : Nat :=
  es.countP fun e =>
    match e with
    | Effect.scheduleReconnect _ => true
    | _ => false

/-- The delays of the reconnect setTimeout calls in an effect list, in
order. -/
def schedDelays (es : List Effect) : List Nat :=
  es.filterMap fun e =>
    match e with
    | Effect.scheduleReconnect d => some d
    | _ => none

/-- True when an effect list shows the reconnect policy ran: it either
scheduled a retry or dispatched the terminal connectivity error. -/
def triggersReconnectPolicy (es : List Effect) : Bool :=
  es.any fun e =>
    match e with
    | Effect.scheduleReconnect _ => true
    | Effect.storeDispatch a _ => a = "app/websocketError"
    | _ => false

/-- The service state together with the number of reconnect setTimeout
callbacks that have been scheduled but have not yet fired.  The class
never stores the setTimeout handle, so no method can remove a pending
callback; only its firing consumes it. -/
structure Sys where
  ws : WS
  pendingReconnects : Nat
deriving DecidableEq, Repr

/-- Run a service step on the system: scheduled reconnect callbacks
accumulate in pendingReconnects. -/
def sysStep (f : WS → WS × List Effect) (sys : Sys) : Sys × List Effect :=
  let p := f sys.ws
  ({ ws := p.1, pendingReconnects := sys.pendingReconnects + countSched p.2 },
   p.2)

/-- disconnect() at the system level: the pending reconnect callbacks
are untouched because their handles were never stored. -/
def sysDisconnect (sys : Sys) : Sys × List Effect := sysStep disconnect sys

/-- A pending reconnect callback fires: it is consumed and the reconnect
body runs (any scheduling it causes in turn is counted). -/
def sysReconnectFire (token : Option String) (sys : Sys) : Sys × List Effect :=
  if sys.pendingReconnects = 0 then (sys, [])
  else
    let p := reconnectFire token sys.ws
    ({ ws := p.1,
       pendingReconnects := sys.pendingReconnects - 1 + countSched p.2 },
     p.2)

/-- Iterate a step function n times, concatenating the effects. -/
def iterStep (f : WS → WS × List Effect) : Nat → WS → WS × List Effect
  | 0, s => (s, [])
  | n + 1, s =>
    let p := f s
    let q := iterStep f n p.1
    (q.1, p.2 ++ q.2)

/-- A freshly connected state: socket open, counters reset, ping
interval running, user id retained — the state after a token-less
connect("u1") followed by the transport open event. -/
def demoOpenWS : WS :=
  { socket := some
      { url := wsUrl "u1"
        readyState := ReadyState.opened
        onopen := OnOpenHandler.handleOpenCb }
    reconnectAttempts := 0
    reconnectTimeout := 1000
    pingInterval := true
    userId := some "u1" }

/-- One failed-attempt cycle: an abnormal close (code 1006) followed,
after the scheduled delay, by the firing of the reconnect body (no
token). -/
def failStep (s : WS) : WS × List Effect :=
  let p := fireClose 1006 s
  let q := reconnectFire none p.1
  (q.1, p.2 ++ q.2)

/-- The scheduled delays produced by three consecutive abnormal closes
starting from a freshly connected state. -/
def threeCloseDelays : List Nat :=
  let p1 := failStep demoOpenWS
  let p2 := failStep p1.1
  let p3 := failStep p2.1
  schedDelays (p1.2 ++ p2.2 ++ p3.2)

/-- True for an inbound frame that is undecodable, lacks a type field,
or carries a type outside the switch cases of handleMessage. -/
def malformedInbound (m : Inbound) : Bool :=
  match m with
  | Inbound.undecodable _ => true
  | Inbound.envelope none _ => true
  | Inbound.envelope (some t) _ =>
    !(t == "pong" || t == "chat_message" || t == "goal_update" ||
      t == "transaction_update" || t == "post_update")

end WSClient

namespace WSClient

theorem disconnect_fst (s : WS) :
    (disconnect s).1 = { s with socket := none, pingInterval := false } := by
  rcases s with ⟨sock, a, t, ping, uid⟩
  cases sock <;> cases ping <;> rfl

theorem countSched_disconnect (s : WS) : countSched (disconnect s).2 = 0 := by
  rcases s with ⟨sock, a, t, ping, uid⟩
  cases sock <;> cases ping <;> rfl

theorem connect_attempts (uid : String) (token : Option String) (s : WS) :
    (connect uid token s).1.reconnectAttempts = s.reconnectAttempts := by
  unfold connect
  split <;> rfl

theorem connect_timeout (uid : String) (token : Option String) (s : WS) :
    (connect uid token s).1.reconnectTimeout = s.reconnectTimeout := by
  unfold connect
  split <;> rfl

theorem reconnectFire_attempts (token : Option String) (s : WS) :
    (reconnectFire token s).1.reconnectAttempts = s.reconnectAttempts + 1 := by
  unfold reconnectFire
  cases h : s.userId with
  | none => rfl
  | some uid => simp only [h, connect_attempts]

theorem reconnectFire_timeout (token : Option String) (s : WS) :
    (reconnectFire token s).1.reconnectTimeout = s.reconnectTimeout * 2 := by
  unfold reconnectFire
  cases h : s.userId with
  | none => rfl
  | some uid => simp only [h, connect_timeout]

end WSClient

namespace WSClient

/-- C1: evaluation at the failing input.  After connect("u1") with a
bearer token present, the transport open event runs only the overwritten
onopen closure: the handshake is sent, but the bound handleOpen never
runs, so the keepalive ping interval is not started (and the attempt
counter and backoff timeout, here 3 and 8000, are not reset).  The claim
says the keepalive timer starts AND the handshake is sent on every open
with a token. -/
theorem C1_token_open_skips_keepalive :
    (fireOpen (connect "u1" (some "tok")
        { initWS with reconnectAttempts := 3, reconnectTimeout := 8000 }).1).2
      = [Effect.wsSend (OutMsg.auth "tok")] ∧
    (fireOpen (connect "u1" (some "tok")
        { initWS with reconnectAttempts := 3,
                      reconnectTimeout := 8000 }).1).1.pingInterval = false ∧
    (fireOpen (connect "u1" (some "tok")
        { initWS with reconnectAttempts := 3,
                      reconnectTimeout := 8000 }).1).1.reconnectAttempts = 3 := by
  decide

/-- C7 counterexample: with the connection Open for identity "u1",
connect("u2") with a fresh token is a complete no-op — the old logical
session is not torn down, no Connecting is initiated, and the retained
identity stays "u1" — refuting the claim that a different identity first
tears down the old session. -/
theorem C7_counterexample_identity_ignored :
    connect "u2" (some "tok2") demoOpenWS = (demoOpenWS, []) ∧
    demoOpenWS.userId = some "u1" := by
  decide

/-- C7 amended: connect is a no-op whenever the socket is already OPEN,
regardless of the identity passed; the identity argument is compared
against nothing and no teardown occurs. -/
theorem C7_amended_connect_noop_when_open (uid : String)
    (token : Option String) (s : WS) (h : socketIsOpen s = true) :
    connect uid token s = (s, []) := by
  simp [connect, h]

/-- Witness for C7 amended at a concrete Open state. -/
theorem C7_amended_connect_noop_when_open_witness :
    connect "u2" none demoOpenWS = (demoOpenWS, []) :=
  C7_amended_connect_noop_when_open "u2" none demoOpenWS rfl

/-- C8: send while the socket is absent or not OPEN performs no
transport write, logs a synchronous local error, and leaves the service
state — which contains no queue — unchanged, so the message can never be
delivered later. -/
theorem C8_send_not_open_no_write (s : WS) (d : OutMsg)
    (h : socketIsOpen s = false) :
    send d s = (s, [Effect.consoleError "WebSocket is not connected"]) ∧
    ∀ p, Effect.wsSend p ∉ (send d s).2 := by
  constructor
  · simp [send, h]
  · intro p hp
    simp [send, h] at hp

/-- Witness for C8: sending the ping probe on the initial state. -/
theorem C8_send_not_open_no_write_witness :
    send OutMsg.ping initWS
      = (initWS, [Effect.consoleError "WebSocket is not connected"]) :=
  (C8_send_not_open_no_write initWS OutMsg.ping rfl).1

/-- C10: disconnect is total (a Lean function), is a no-op emitting no
effect when the socket and the ping interval are both absent, and is
idempotent on the service state — a second call leaves exactly the state
of the first and emits no effect. -/
theorem C10_disconnect_idempotent (s : WS) :
    (s.socket = none ∧ s.pingInterval = false → disconnect s = (s, [])) ∧
    (disconnect (disconnect s).1).1 = (disconnect s).1 ∧
    (disconnect (disconnect s).1).2 = [] := by
  rcases s with ⟨sock, a, t, ping, uid⟩
  refine ⟨?_, ?_, ?_⟩
  · rintro ⟨h1, h2⟩
    simp only at h1 h2
    subst h1; subst h2
    rfl
  · cases sock <;> cases ping <;> rfl
  · cases sock <;> cases ping <;> rfl

/-- Witness for C10 at the initial (never-connected) state. -/
theorem C10_disconnect_idempotent_witness :
    disconnect initWS = (initWS, []) :=
  (C10_disconnect_idempotent initWS).1 ⟨rfl, rfl⟩

end WSClient

namespace WSClient

/-- C3 counterexample: with no token, a connection whose transport
merely reports open resets the attempt counter from 3 to 0 (and the
backoff timeout from 8000 to 1000) although no handshake message was
ever sent — the open-event effects are only the log and the ping-
interval start.  This refutes the claim that the counter is reset only
upon completion of a successful handshake and not merely on transport
open. -/
theorem C3_counterexample_reset_on_mere_open :
    (fireOpen (connect "u1" none
        { initWS with reconnectAttempts := 3,
                      reconnectTimeout := 8000 }).1).1.reconnectAttempts = 0 ∧
    (fireOpen (connect "u1" none
        { initWS with reconnectAttempts := 3, reconnectTimeout := 8000 }).1).2
      = [Effect.consoleLog "WebSocket connected", Effect.startPing 30000] := by
  decide

/-- C3 amended: the attempt counter is reset to zero on mere transport
open when the bound handleOpen is the installed open callback (the
token-less case); when the handshake closure is installed instead (a
token was present) the counter is never reset by the open event; and
each firing of the scheduled reconnect body increments the counter by
exactly one. -/
theorem C3_amended_counter_reset_on_open (s : WS) (sock : Socket)
    (t : String) (token : Option String) :
    (s.socket = some sock → sock.onopen = OnOpenHandler.handleOpenCb →
      (fireOpen s).1.reconnectAttempts = 0) ∧
    (s.socket = some sock → sock.onopen = OnOpenHandler.sendAuthCb t →
      (fireOpen s).1.reconnectAttempts = s.reconnectAttempts) ∧
    (reconnectFire token s).1.reconnectAttempts = s.reconnectAttempts + 1 := by
  refine ⟨?_, ?_, reconnectFire_attempts token s⟩
  · intro hs ho
    simp [fireOpen, hs, ho, handleOpen]
  · intro hs ho
    simp [fireOpen, hs, ho]

/-- Witness for C3 amended: on the demo Open state (handleOpen
installed) the open event resets the counter, and a reconnect firing
increments it. -/
theorem C3_amended_counter_reset_on_open_witness :
    (fireOpen demoOpenWS).1.reconnectAttempts = 0 ∧
    (reconnectFire none demoOpenWS).1.reconnectAttempts = 1 := by
  have h := C3_amended_counter_reset_on_open demoOpenWS
    { url := wsUrl "u1", readyState := ReadyState.opened,
      onopen := OnOpenHandler.handleOpenCb } "tok" none
  exact ⟨h.1 rfl rfl, h.2.2⟩

/-- C4 counterexample: from a freshly connected Open state, ten
keepalive periods elapse with zero inbound traffic; the state after the
ten ping ticks is identical (still Open), and no reconnect is ever
scheduled — the connection never transitions toward Reconnecting,
refuting the claim that sustained silence forces the transition exactly
once. -/
theorem C4_counterexample_silence_never_fails :
    (iterStep pingFire 10 demoOpenWS).1 = demoOpenWS ∧
    schedDelays (iterStep pingFire 10 demoOpenWS).2 = [] ∧
    socketIsOpen (iterStep pingFire 10 demoOpenWS).1 = true := by
  decide

/-- C4 amended: while Open, a keepalive tick only writes the ping probe
and changes nothing — the client has no inactivity deadline, so the
absence of inbound traffic (pong or otherwise) never causes a
transition; only transport close events do. -/
theorem C4_amended_no_inactivity_detection (s : WS)
    (h : socketIsOpen s = true) :
    pingFire s = (s, [Effect.wsSend OutMsg.ping]) := by
  simp [pingFire, send, h]

/-- Witness for C4 amended at the demo Open state. -/
theorem C4_amended_no_inactivity_detection_witness :
    pingFire demoOpenWS = (demoOpenWS, [Effect.wsSend OutMsg.ping]) :=
  C4_amended_no_inactivity_detection demoOpenWS rfl

/-- C6 counterexample: a transport error event delivered at an Open
connection only logs; the state is unchanged and the reconnect policy is
not invoked (no retry scheduled, no terminal error dispatched),
refuting the claim that every transport-level error event triggers the
Reconnect Policy. -/
theorem C6_counterexample_error_event_ignored :
    handleError demoOpenWS
      = (demoOpenWS, [Effect.consoleError "WebSocket error:"]) ∧
    triggersReconnectPolicy (handleError demoOpenWS).2 = false := by
  decide

/-- C6 amended: among close events, the normal-closure code 1000 is the
only one that suppresses reconnection — every other close code invokes
the reconnect policy (scheduling a retry or dispatching the terminal
error) — while a transport error event is only logged and does not by
itself trigger the policy. -/
theorem C6_amended_close_codes (s : WS) (code : Nat) :
    (code ≠ 1000 → triggersReconnectPolicy (handleClose code s).2 = true) ∧
    (code = 1000 → triggersReconnectPolicy (handleClose code s).2 = false) ∧
    handleError s = (s, [Effect.consoleError "WebSocket error:"]) := by
  refine ⟨?_, ?_, rfl⟩
  · intro hc
    unfold handleClose attemptReconnect
    cases hp : s.pingInterval <;>
      simp [hc, triggersReconnectPolicy] <;>
        split <;> simp [triggersReconnectPolicy]
  · intro hc
    subst hc
    unfold handleClose
    cases hp : s.pingInterval <;> simp [triggersReconnectPolicy]

/-- Witness for C6 amended: abnormal close 1006 triggers the policy,
normal close 1000 does not. -/
theorem C6_amended_close_codes_witness :
    triggersReconnectPolicy (handleClose 1006 demoOpenWS).2 = true ∧
    triggersReconnectPolicy (handleClose 1000 demoOpenWS).2 = false :=
  ⟨(C6_amended_close_codes demoOpenWS 1006).1 (by decide),
   (C6_amended_close_codes demoOpenWS 1000).2.1 rfl⟩

end WSClient

namespace WSClient

/-- C2 counterexample: from an Open connection for "u1", an abnormal
close (1006) schedules a reconnect callback; disconnect() then closes
and nulls the socket and clears the ping interval, yet the pending
callback count is still 1 — the class never stored the setTimeout
handle — and when that callback fires it re-enters Connecting with a
fresh socket, after the client reported itself closed.  This refutes
the claim that disconnect() cancels any pending reconnect timer and
that no Connecting state is entered afterward. -/
theorem C2_counterexample_pending_reconnect_survives :
    (sysDisconnect (sysStep (fireClose 1006)
        { ws := demoOpenWS, pendingReconnects := 0 }).1).1.pendingReconnects
      = 1 ∧
    ((sysReconnectFire none (sysDisconnect (sysStep (fireClose 1006)
        { ws := demoOpenWS, pendingReconnects := 0 }).1).1).1.ws.socket.map
      Socket.readyState) = some ReadyState.connecting := by
  decide

/-- C2 amended: disconnect() does cancel the keepalive timer and nulls
the socket, but it cancels no pending reconnect timer (the setTimeout
handle is never stored, so the pending-callback count is unchanged);
consequently, whenever a reconnect callback is pending and an identity
is retained, its firing after disconnect() re-enters Connecting. -/
theorem C2_amended_disconnect_no_timer_cancel (sys : Sys) (uid : String)
    (token : Option String) :
    ((sysDisconnect sys).1.pendingReconnects = sys.pendingReconnects ∧
     (sysDisconnect sys).1.ws.pingInterval = false ∧
     (sysDisconnect sys).1.ws.socket = none) ∧
    (sys.ws.userId = some uid → sys.pendingReconnects ≠ 0 →
      ((sysReconnectFire token (sysDisconnect sys).1).1.ws.socket.map
          Socket.readyState) = some ReadyState.connecting) := by
  rcases sys with ⟨ws, pend⟩
  constructor
  · refine ⟨?_, ?_, ?_⟩
    · simp [sysDisconnect, sysStep, countSched_disconnect]
    · simp [sysDisconnect, sysStep, disconnect_fst]
    · simp [sysDisconnect, sysStep, disconnect_fst]
  · intro hu hp
    simp only at hu hp
    cases token <;>
      simp [sysDisconnect, sysStep, countSched_disconnect, sysReconnectFire,
        hp, reconnectFire, disconnect_fst, hu, connect, socketIsOpen]

/-- Witness for C2 amended on the post-abnormal-close system state. -/
theorem C2_amended_disconnect_no_timer_cancel_witness :
    ((sysDisconnect { ws := demoOpenWS, pendingReconnects := 1 }).1.pendingReconnects = 1) ∧
    ((sysReconnectFire none (sysDisconnect
        { ws := demoOpenWS, pendingReconnects := 1 }).1).1.ws.socket.map
        Socket.readyState) = some ReadyState.connecting := by
  have h := C2_amended_disconnect_no_timer_cancel
    { ws := demoOpenWS, pendingReconnects := 1 } "u1" none
  exact ⟨h.1.1, h.2 rfl (by decide)⟩

/-- C5: exponential backoff.  For any state satisfying the backoff
invariant (counter k, timeout 1000·2^k, identity retained): while k is
below the maximum 5, a failure schedules exactly the delay 1000·2^k
(so delays are non-decreasing), and the fired reconnect body moves the
state to counter k+1 and timeout 1000·2^(k+1); once k has reached 5,
no delay is scheduled and the terminal connectivity error is dispatched
instead.  Concretely, three consecutive abnormal closes from a fresh
connection schedule exactly the delays 1000, 2000, 4000 ms. -/
theorem C5_exponential_backoff :
    (∀ (s : WS) (k : Nat) (token : Option String),
      s.reconnectAttempts = k → s.reconnectTimeout = 1000 * 2 ^ k →
      s.userId.isSome = true →
      ((k < maxReconnectAttempts →
        (attemptReconnect s).2 = [Effect.scheduleReconnect (1000 * 2 ^ k)] ∧
        (reconnectFire token s).1.reconnectAttempts = k + 1 ∧
        (reconnectFire token s).1.reconnectTimeout = 1000 * 2 ^ (k + 1) ∧
        1000 * 2 ^ k ≤ 1000 * 2 ^ (k + 1)) ∧
       (maxReconnectAttempts ≤ k →
        (attemptReconnect s).2 =
          [Effect.consoleError "Max reconnection attempts reached",
           Effect.storeDispatch "app/websocketError"
             "Unable to establish WebSocket connection"]))) ∧
    threeCloseDelays = [1000, 2000, 4000] := by
  constructor
  · intro s k token h1 h2 h3
    constructor
    · intro hk
      refine ⟨?_, ?_, ?_, ?_⟩
      · simp [attemptReconnect, h1, h2, h3, hk]
      · rw [reconnectFire_attempts, h1]
      · rw [reconnectFire_timeout, h2, pow_succ]
        ring
      · have h2le : (2 : ℕ) ^ k ≤ 2 ^ (k + 1) :=
          Nat.pow_le_pow_right (by norm_num) (Nat.le_succ k)
        exact Nat.mul_le_mul_left 1000 h2le
    · intro hk
      simp [attemptReconnect, h1, Nat.not_lt.2 hk]
  · decide

/-- Witness for C5 on the fresh connected state (k = 0). -/
theorem C5_exponential_backoff_witness :
    (attemptReconnect demoOpenWS).2 = [Effect.scheduleReconnect 1000] := by
  have h := ((C5_exponential_backoff.1 demoOpenWS 0 none rfl (by decide)
    rfl).1 (by decide)).1
  simpa using h

/-- C9: every inbound frame that fails to parse, lacks a type field, or
carries a type outside the handled switch cases yields zero store
dispatches, exactly one diagnostic (a console error for a parse failure,
a console log otherwise), and leaves the service state — socket, timers,
counters — unchanged; the handler is total, so nothing is raised. -/
theorem C9_malformed_inbound_dropped (s : WS) (m : Inbound)
    (h : malformedInbound m = true) :
    (handleMessage m s).1 = s ∧
    ((handleMessage m s).2
        = [Effect.consoleError "Error parsing WebSocket message:"] ∨
     (handleMessage m s).2 = [Effect.consoleLog "Unhandled message type:"]) ∧
    (∀ a p, Effect.storeDispatch a p ∉ (handleMessage m s).2) := by
  cases m with
  | undecodable raw =>
    refine ⟨rfl, Or.inl rfl, ?_⟩
    intro a p hp
    simp [handleMessage] at hp
  | envelope t d =>
    cases t with
    | none =>
      refine ⟨rfl, Or.inr rfl, ?_⟩
      intro a p hp
      simp [handleMessage] at hp
    | some ty =>
      simp only [malformedInbound, Bool.not_eq_true', Bool.or_eq_false_iff,
        beq_eq_false_iff_ne, ne_eq] at h
      obtain ⟨⟨⟨⟨hp1, hp2⟩, hp3⟩, hp4⟩, hp5⟩ := h
      refine ⟨?_, Or.inr ?_, ?_⟩
      · simp [handleMessage, hp1, hp2, hp3, hp4, hp5]
      · simp [handleMessage, hp1, hp2, hp3, hp4, hp5]
      · intro a p hp
        simp [handleMessage, hp1, hp2, hp3, hp4, hp5] at hp

/-- Witness for C9 on an envelope with an unknown type at the demo Open
state. -/
theorem C9_malformed_inbound_dropped_witness :
    (handleMessage (Inbound.envelope (some "unknown-xyz") "x")
        demoOpenWS).1 = demoOpenWS :=
  (C9_malformed_inbound_dropped demoOpenWS
    (Inbound.envelope (some "unknown-xyz") "x") (by decide)).1

end WSClient
